import Mathlib

/-!
# Verification of the garden.zbarcam frame-detection pipeline

Shallow embedding of the two ZBarCam widget variants:

* `Zbar`   — `src/zbarcam.py` (zbar bindings + a worker `threading.Thread`
  per frame, guarded by an `is_alive` check; `@mainthread` publish helper).
* `Pyzbar` — `src/zbarcam/zbarcam.py` (pyzbar bindings, synchronous decode
  inside `_on_texture`, iOS BGRA→RGBA shim).

Bytes are modelled as `Nat`, byte buffers as `List Nat`.  The external image
library (PIL) and the external decoders (zbar / pyzbar) are modelled by their
documented and observable behaviour at exactly the call sites the widget uses;
the decoder's scan itself is kept abstract as a function parameter.
-/

namespace ZbarcamModel

/-! ## Pixel formats and the PIL call sites

Kivy's `texture.colorfmt.upper()` yields a pixel-format tag.  The tags
relevant to the code and the spec are RGBA, RGB, BGRA and single-channel
luminance (PIL mode `L`). -/

inductive PixelFormat
  | RGBA
  | RGB
  | BGRA
  | L
  deriving DecidableEq

/-- Bytes per pixel of raw data for each format tag. -/
def bytesPerPixel : PixelFormat → Nat
  | .RGBA => 4
  | .RGB => 3
  | .BGRA => 4
  | .L => 1

/-- PIL image modes supported by `PIL.Image.frombytes`.  PIL has no `BGRA`
mode: `frombytes(mode='BGRA', ...)` raises `ValueError: unrecognized image
mode` (the source comment in `src/zbarcam/zbarcam.py` acknowledges this:
"PIL doesn't support BGRA but IOS uses BGRA for the camera"). -/
def pilSupported : PixelFormat → Bool
  | .RGBA => true
  | .RGB => true
  | .BGRA => false
  | .L => true

/-- The `ValueError`s `PIL.Image.frombytes` can raise at this call site:
an unrecognized mode, or raw data whose length does not match
`width * height * bytesPerPixel(mode)` ("not enough image data" /
"cannot decode image data"). -/
inductive ValueError
  | unrecognizedMode
  | wrongLength
  deriving DecidableEq

/-- A PIL image: mode, size and raw bytes. -/
structure PILImage where
  mode : PixelFormat
  width : Nat
  height : Nat
  data : List Nat
  deriving DecidableEq

/-- Model of `PIL.Image.frombytes(mode, size, data)` with the raw decoder:
fails on a mode PIL does not know, fails when the data length is inconsistent
with `width * height * bytesPerPixel(mode)`, otherwise wraps the bytes. -/
def frombytes (mode : PixelFormat) (width height : Nat) (data : List Nat) :
    Except ValueError PILImage :=
  if pilSupported mode = false then .error .unrecognizedMode
  else if data.length = width * height * bytesPerPixel mode then
    .ok ⟨mode, width, height, data⟩
  else .error .wrongLength

/-- Luminance of one pixel, following PIL's ITU-R 601-2 integer luma used by
`convert('L')`: `(R*19595 + G*38470 + B*7471 + 0x8000) >> 16`; alpha is
ignored, single-channel data passes through. -/
def lumaPixel (mode : PixelFormat) (px : List Nat) : Nat :=
  match mode with
  | .L => px.headD 0
  | .RGB => (px.getD 0 0 * 19595 + px.getD 1 0 * 38470 + px.getD 2 0 * 7471 + 32768) / 65536
  | .RGBA => (px.getD 0 0 * 19595 + px.getD 1 0 * 38470 + px.getD 2 0 * 7471 + 32768) / 65536
  | .BGRA => (px.getD 2 0 * 19595 + px.getD 1 0 * 38470 + px.getD 0 0 * 7471 + 32768) / 65536

/-- Reduce `pixelCount` pixels of packed `mode` data to one luminance byte
each. -/
def toLuminance (mode : PixelFormat) : Nat → List Nat → List Nat
  | 0, _ => []
  | n + 1, bytes =>
      lumaPixel mode (bytes.take (bytesPerPixel mode)) ::
        toLuminance mode n (bytes.drop (bytesPerPixel mode))

/-- Model of `pil_image.convert('L')`: same size, one luminance byte per
pixel. -/
def convertL (img : PILImage) : PILImage :=
  ⟨.L, img.width, img.height, toLuminance img.mode (img.width * img.height) img.data⟩

/-- A raw camera frame as handed to `_detect_qrcode_frame`: texture pixel
bytes, size and the (uppercased) colorfmt tag. -/
structure RawFrame where
  pixels : List Nat
  width : Nat
  height : Nat
  fmt : PixelFormat
  deriving DecidableEq

/-- A single-channel luminance image (the spec's LuminanceImage). -/
structure LuminanceImage where
  width : Nat
  height : Nat
  buffer : List Nat
  deriving DecidableEq

/-- Model of the platform shim in `Pyzbar._detect_qrcode_frame`:
`if platform == 'ios' and fmt == 'BGRA': fmt = 'RGBA'`; every other
(platform, format) pair is passed through unchanged. -/
def correctedFormat (platform : String) (fmt : PixelFormat) : PixelFormat :=
  if platform = "ios" ∧ fmt = .BGRA then .RGBA else fmt

/-- The frame-normalization prefix of `_detect_qrcode_frame` (the spec's
FrameBuffer Adapter `normalize`): platform format correction, then
`PIL.Image.frombytes`, then `convert('L')`, yielding the single-channel
image handed to the decoder. -/
def normalize (platform : String) (raw : RawFrame) :
    Except ValueError LuminanceImage :=
  (frombytes (correctedFormat platform raw.fmt) raw.width raw.height raw.pixels).map
    fun img =>
      let l := convertL img
      ⟨l.width, l.height, l.data⟩

/-! ## The zbar + threading variant (`src/zbarcam.py`) -/

namespace Zbar

/-- A symbol as iterated from a scanned `zbar.Image`: type tag, payload
bytes, quality and count. -/
structure ZSymbol where
  type : String
  data : List Nat
  quality : Nat
  count : Nat
  deriving DecidableEq

/-- The `Qrcode` namedtuple:
`namedtuple('Qrcode', ['type', 'data', 'bounds', 'quality', 'count'])`. -/
structure Qrcode where
  type : String
  data : List Nat
  bounds : Option (Nat × Nat × Nat × Nat)
  quality : Nat
  count : Nat
  deriving DecidableEq

/-- The record built inside the `for symbol in zimage` loop of
`_detect_qrcode_frame`:
`Qrcode(type=symbol.type, data=symbol.data, quality=symbol.quality,
count=symbol.count, bounds=None)`. -/
def mkQrcode (s : ZSymbol) : Qrcode :=
  ⟨s.type, s.data, none, s.quality, s.count⟩

/-- The symbol list accumulated by the loop (append per symbol, in decoder
order). -/
def buildSymbols (zsymbols : List ZSymbol) : List Qrcode :=
  zsymbols.map mkQrcode

/-- The value the `symbols` property holds after one run of
`_detect_qrcode_frame`, as a function of the previous value and the decoder
scan result: `result == 0` assigns `[]`, otherwise the freshly built list is
published via `_update_symbols`.  The previous value is a parameter to make
visible that the code never reads it. -/
def cyclePublish (_prior : List Qrcode) (zsymbols : List ZSymbol) : List Qrcode :=
  if zsymbols.length = 0 then [] else buildSymbols zsymbols

/-- Execution contexts of the widget: the Kivy main (UI) thread and the
worker `threading.Thread` spawned per accepted frame. -/
inductive Ctx
  | main
  | worker
  deriving DecidableEq

/-- One assignment to the `symbols` property: the context it executes on and
the value assigned. -/
structure Mutation where
  ctx : Ctx
  value : List Qrcode
  deriving DecidableEq

/-- The `symbols`-property assignments performed by one run of
`_detect_qrcode_frame` when executed on context `c`.  The zero-symbol branch
runs `self.symbols = []` directly on `c`; the nonzero branch calls
`_update_symbols`, whose `@mainthread` decorator schedules the assignment on
the main thread. -/
def detectCycleMutations (c : Ctx) (zsymbols : List ZSymbol) : List Mutation :=
  if zsymbols.length = 0 then [⟨c, []⟩]
  else [⟨Ctx.main, buildSymbols zsymbols⟩]

/-- Widget state touched by `start` / `stop` / publishing: the inner
camera's `play` flag and the `symbols` property. -/
structure WidgetState where
  play : Bool
  symbols : List Qrcode
  deriving DecidableEq

/-- Source: `def start(self): self._camera.play = True`. -/
def start (s : WidgetState) : WidgetState :=
  { s with play := true }

/-- Source: `def stop(self): self._camera.play = False`. -/
def stop (s : WidgetState) : WidgetState :=
  { s with play := false }

/-- Completion of an in-flight decode whose scan found `zsymbols`: the
resulting `symbols` assignment (unconditional — neither `_update_symbols`
nor the zero-symbol branch consults any flag before assigning). -/
def completeCycle (s : WidgetState) (zsymbols : List ZSymbol) : WidgetState :=
  { s with symbols := cyclePublish s.symbols zsymbols }

/-! ### The Detection Scheduler (`_on_texture`)

`_on_texture` keeps one field, `_detect_qrcode_frame_thread`, initially
`None`; on each frame arrival it returns early when that thread exists and
`is_alive()`, and otherwise creates and starts a fresh thread. -/

/-- Liveness of the stored worker thread. -/
inductive ThreadState
  | running
  | finished
  deriving DecidableEq

/-- Scheduler state: the `_detect_qrcode_frame_thread` field (`none` before
the first frame). -/
structure SchedState where
  thread : Option ThreadState
  deriving DecidableEq

/-- Model of `thread and thread.is_alive()`. -/
def threadAlive : Option ThreadState → Bool
  | some .running => true
  | _ => false

/-- Outcome of one frame-arrival event. -/
inductive FrameOutcome
  | started
  | dropped
  deriving DecidableEq

/-- One `_on_texture` frame-arrival event: if the stored thread is alive the
handler returns early (the frame is dropped, the state is untouched, nothing
is queued); otherwise a new decode thread is created and started. -/
def onTexture (s : SchedState) : SchedState × FrameOutcome :=
  if threadAlive s.thread then (s, .dropped)
  else (⟨some .running⟩, .started)

/-- Completion of the running decode thread: `is_alive()` becomes false. -/
def decodeComplete (s : SchedState) : SchedState :=
  match s.thread with
  | some .running => ⟨some .finished⟩
  | t => ⟨t⟩

/-- A burst of `n` frame-arrival events with no decode completion in
between (each decode outlives the inter-arrival time).  Returns the final
state, the number of decodes started and the number of frames dropped. -/
def burst (s : SchedState) : Nat → SchedState × Nat × Nat
  | 0 => (s, 0, 0)
  | n + 1 =>
      let (s', o) := onTexture s
      let (s'', st, dr) := burst s' n
      (s'', (if o = .started then 1 else 0) + st,
            (if o = .dropped then 1 else 0) + dr)

end Zbar

/-! ## The pyzbar variant (`src/zbarcam/zbarcam.py`) -/

namespace Pyzbar

/-- The members of `pyzbar.ZBarSymbol` (the symbology enumeration). -/
inductive ZBarSymbol
  | EAN2
  | EAN5
  | EAN8
  | UPCE
  | ISBN10
  | UPCA
  | EAN13
  | ISBN13
  | COMPOSITE
  | I25
  | DATABAR
  | DATABAR_EXP
  | CODABAR
  | CODE39
  | PDF417
  | QRCODE
  | SQCODE
  | CODE93
  | CODE128
  deriving DecidableEq

/-- A decoded result as returned by `pyzbar.decode`: symbology type and
payload bytes. -/
structure CodeResult where
  type : ZBarSymbol
  data : List Nat
  deriving DecidableEq

/-- Model of `pyzbar.pyzbar.decode(image, symbols=code_types)`.  The
underlying zbar scan is abstracted as `scan`, the symbol list the scanner
reports on the image with its default configuration (all symbologies
enabled).  pyzbar applies per-type configuration only under `if symbols:`,
so a non-empty `code_types` restricts the scan to the listed types while an
empty (falsy) `code_types` leaves the scanner's default — every symbology —
enabled; no error path is taken in either case. -/
def decode (scan : PILImage → List CodeResult) (image : PILImage)
    (code_types : List ZBarSymbol) : List CodeResult :=
  if code_types.isEmpty then scan image
  else (scan image).filter fun c => code_types.contains c.type

/-- The `Symbol` namedtuple: `namedtuple('Symbol', ['type', 'data'])`. -/
structure Symbol where
  type : ZBarSymbol
  data : List Nat
  deriving DecidableEq

/-- The record built inside the `for code in codes` loop:
`Symbol(type=code.type, data=code.data)`. -/
def mkSymbol (c : CodeResult) : Symbol :=
  ⟨c.type, c.data⟩

/-- The static method `_detect_qrcode_frame(texture, code_types)`: read the
texture's pixels, size and uppercased colorfmt, apply the iOS BGRA→RGBA
shim, build a PIL image with `frombytes` (whose `ValueError` propagates),
run `pyzbar.decode` on it restricted to `code_types`, and wrap each result
as a `Symbol`. -/
def detect_qrcode_frame (scan : PILImage → List CodeResult)
    (platform : String) (t : RawFrame) (code_types : List ZBarSymbol) :
    Except ValueError (List Symbol) :=
  let fmt := correctedFormat platform t.fmt
  (frombytes fmt t.width t.height t.pixels).map
    fun img => (decode scan img code_types).map mkSymbol

/-- Widget state touched by the pyzbar variant: the inner camera's `play`
flag, the `symbols` property and the configured `code_types`. -/
structure WidgetState where
  play : Bool
  symbols : List Symbol
  code_types : List ZBarSymbol
  deriving DecidableEq

/-- The event handler
`_on_texture(self, instance): self.symbols = self._detect_qrcode_frame(...)`.
When `frombytes` raises, the exception propagates out of the handler and no
assignment happens. -/
def on_texture (scan : PILImage → List CodeResult) (platform : String)
    (s : WidgetState) (t : RawFrame) : WidgetState :=
  match detect_qrcode_frame scan platform t s.code_types with
  | .ok syms => { s with symbols := syms }
  | .error _ => s

/-- Source: `def start(self): self.xcamera.play = True`. -/
def start (s : WidgetState) : WidgetState :=
  { s with play := true }

/-- Source: `def stop(self): self.xcamera.play = False`. -/
def stop (s : WidgetState) : WidgetState :=
  { s with play := false }

end Pyzbar

/-! ## Helper lemmas -/

/-- Luminance reduction yields exactly one byte per pixel counted. -/
theorem toLuminance_length (mode : PixelFormat) :
    ∀ (n : Nat) (bytes : List Nat), (toLuminance mode n bytes).length = n := by
  intro n
  induction n with
  | zero => intro bytes; rfl
  | succ m ih => intro bytes; simp [toLuminance, ih]

/-- The iOS BGRA→RGBA shim never changes the bytes-per-pixel count. -/
theorem bytesPerPixel_correctedFormat (platform : String) (fmt : PixelFormat) :
    bytesPerPixel (correctedFormat platform fmt) = bytesPerPixel fmt := by
  unfold correctedFormat
  split
  · rename_i h
    rw [h.2]
    rfl
  · rfl

/-- While the stored worker thread is alive, every frame-arrival event of a
burst is dropped and the scheduler state never changes. -/
theorem burst_of_alive (n : Nat) :
    ∀ s : Zbar.SchedState, Zbar.threadAlive s.thread = true →
      Zbar.burst s n = (s, 0, n) := by
  induction n with
  | zero => intro s _; rfl
  | succ m ih =>
      intro s h
      simp only [Zbar.burst, Zbar.onTexture, h, if_true, ih s h]
      simp [Nat.add_comm]

/-! ## Claim theorems -/

/-- C1: at most one decode is in flight.  Whenever the stored worker thread
is still alive, a frame-arrival event leaves the scheduler state untouched
and drops the frame (nothing is queued, no decode starts); consequently a
burst of `n ≥ 1` frame arrivals with no completion in between starts exactly
1 decode and drops the other `n - 1` frames. -/
theorem at_most_one_decode_in_flight :
    (∀ s : Zbar.SchedState, Zbar.threadAlive s.thread = true →
        Zbar.onTexture s = (s, .dropped)) ∧
    (∀ n : Nat, 1 ≤ n →
        (Zbar.burst ⟨none⟩ n).2.1 = 1 ∧ (Zbar.burst ⟨none⟩ n).2.2 = n - 1) := by
  constructor
  · intro s h
    simp [Zbar.onTexture, h]
  · intro n hn
    obtain ⟨m, rfl⟩ : ∃ m, n = m + 1 := ⟨n - 1, (Nat.succ_pred_eq_of_pos hn).symm⟩
    have halive : Zbar.threadAlive (Zbar.SchedState.mk (some .running)).thread = true := rfl
    simp [Zbar.burst, Zbar.onTexture, Zbar.threadAlive,
      burst_of_alive m ⟨some .running⟩ halive]

/-- C1 witness: a frame arriving while a decode runs is dropped with the
state unchanged, and a burst of 3 arrivals from idle starts 1 decode and
drops 2 frames. -/
theorem at_most_one_decode_in_flight_witness :
    Zbar.onTexture ⟨some .running⟩ = (⟨some .running⟩, .dropped) ∧
    (Zbar.burst ⟨none⟩ 3).2.1 = 1 ∧ (Zbar.burst ⟨none⟩ 3).2.2 = 2 :=
  ⟨at_most_one_decode_in_flight.1 ⟨some .running⟩ (by decide),
   (at_most_one_decode_in_flight.2 3 (by decide)).1,
   (at_most_one_decode_in_flight.2 3 (by decide)).2⟩

/-- C2: the cycle in which the decoder finds zero symbols mutates the
`symbols` property directly on the worker context (the `result == 0` branch
assigns `self.symbols = []` without going through the `@mainthread`
`_update_symbols` helper), while a cycle with symbols mutates it on the main
context. -/
theorem zero_symbol_cycle_mutates_off_main :
    Zbar.detectCycleMutations .worker [] = [⟨.worker, []⟩] ∧
    Zbar.Ctx.worker ≠ Zbar.Ctx.main ∧
    ∀ (z : Zbar.ZSymbol) (zs : List Zbar.ZSymbol),
      Zbar.detectCycleMutations .worker (z :: zs) =
        [⟨.main, Zbar.buildSymbols (z :: zs)⟩] := by
  refine ⟨rfl, by decide, ?_⟩
  intro z zs
  rfl

/-- C3 counterexample: with the widget playing and `symbols` empty, invoking
`stop` and then letting an in-flight decode that found one symbol complete
does mutate the published symbols list — the result is not discarded. -/
theorem stop_then_completion_mutates_symbols :
    (Zbar.completeCycle (Zbar.stop ⟨true, []⟩) [⟨"QR", [72, 73], 10, 1⟩]).symbols ≠
      (⟨true, []⟩ : Zbar.WidgetState).symbols := by
  decide

/-- C3 amended: `stop()` only clears the camera `play` flag and leaves the
published symbols untouched; no "still active" flag exists, so a decode in
flight when `stop()` is invoked still publishes its result exactly as it
would have without the stop. -/
theorem stop_does_not_discard_inflight_result :
    ∀ (s : Zbar.WidgetState) (zs : List Zbar.ZSymbol),
      (Zbar.completeCycle (Zbar.stop s) zs).symbols =
        Zbar.cyclePublish s.symbols zs ∧
      (Zbar.stop s).symbols = s.symbols ∧
      (Zbar.stop s).play = false :=
  fun _ _ => ⟨rfl, rfl, rfl⟩

/-- C4 counterexample: a 1×1 BGRA frame whose buffer length exactly matches
`width * height * bytesPerPixel(format)` still fails to normalize on a
non-iOS platform, because PIL has no BGRA mode — so a matching buffer length
does not guarantee a LuminanceImage. -/
theorem matched_length_bgra_frame_fails :
    ([10, 20, 30, 40] : List Nat).length =
        1 * 1 * bytesPerPixel PixelFormat.BGRA ∧
    normalize "android" ⟨[10, 20, 30, 40], 1, 1, .BGRA⟩ =
      .error .unrecognizedMode :=
  ⟨by decide, rfl⟩

/-- C4 amended: a buffer length inconsistent with
`width * height * bytesPerPixel(format)` always makes `normalize` fail with
a `ValueError` (the spec's MalformedFrame) and no LuminanceImage; a matching
buffer length yields a single-channel image of length `width * height`
provided the (platform-corrected) format is a mode PIL supports — a
matching-length frame in the unsupported BGRA mode off iOS also fails. -/
theorem normalize_length_contract :
    ∀ (platform : String) (raw : RawFrame),
      (raw.pixels.length ≠ raw.width * raw.height * bytesPerPixel raw.fmt →
        ∃ e, normalize platform raw = .error e) ∧
      (pilSupported (correctedFormat platform raw.fmt) = true →
        raw.pixels.length = raw.width * raw.height * bytesPerPixel raw.fmt →
        ∃ img, normalize platform raw = .ok img ∧
          img.buffer.length = raw.width * raw.height) := by
  intro platform raw
  have hbpp := bytesPerPixel_correctedFormat platform raw.fmt
  constructor
  · intro hne
    rw [← hbpp] at hne
    by_cases hs : pilSupported (correctedFormat platform raw.fmt) = false
    · exact ⟨.unrecognizedMode, by simp [normalize, frombytes, hs, Except.map]⟩
    · exact ⟨.wrongLength, by simp [normalize, frombytes, hs, hne, Except.map]⟩
  · intro hs heq
    rw [← hbpp] at heq
    refine ⟨⟨raw.width, raw.height,
      toLuminance (correctedFormat platform raw.fmt)
        (raw.width * raw.height) raw.pixels⟩, ?_, ?_⟩
    · simp [normalize, frombytes, hs, heq, Except.map, convertL]
    · simpa using toLuminance_length (correctedFormat platform raw.fmt)
        (raw.width * raw.height) raw.pixels

/-- C4 witness: a 1×1 RGBA frame with 3 bytes fails, and a 1×1 RGBA frame
with 4 bytes normalizes to a 1-byte luminance image. -/
theorem normalize_length_contract_witness :
    (∃ e, normalize "linux" ⟨[1, 2, 3], 1, 1, .RGBA⟩ = .error e) ∧
    (∃ img, normalize "linux" ⟨[1, 2, 3, 4], 1, 1, .RGBA⟩ = .ok img ∧
      img.buffer.length = 1 * 1) :=
  ⟨(normalize_length_contract "linux" ⟨[1, 2, 3], 1, 1, .RGBA⟩).1 (by decide),
   (normalize_length_contract "linux" ⟨[1, 2, 3, 4], 1, 1, .RGBA⟩).2
     (by decide) (by decide)⟩

/-- C5: the declared BGRA format is reinterpreted as RGBA exactly when the
platform is iOS; every other (platform, format) pair passes through
unchanged. -/
theorem ios_bgra_reinterpreted_as_rgba :
    correctedFormat "ios" .BGRA = .RGBA ∧
    ∀ (p : String) (f : PixelFormat), ¬(p = "ios" ∧ f = .BGRA) →
      correctedFormat p f = f := by
  refine ⟨by decide, ?_⟩
  intro p f h
  unfold correctedFormat
  rw [if_neg h]

/-- C5 witness: iOS BGRA becomes RGBA, Android BGRA and iOS RGBA stay
unchanged. -/
theorem ios_bgra_reinterpreted_as_rgba_witness :
    correctedFormat "ios" .BGRA = .RGBA ∧
    correctedFormat "android" .BGRA = .BGRA ∧
    correctedFormat "ios" .RGBA = .RGBA :=
  ⟨ios_bgra_reinterpreted_as_rgba.1,
   ios_bgra_reinterpreted_as_rgba.2 "android" .BGRA (by decide),
   ios_bgra_reinterpreted_as_rgba.2 "ios" .RGBA (by decide)⟩

/-- C6 counterexample: on an image in which the scanner finds a QR symbol,
decoding with an empty enabled-type list returns that symbol, not the empty
list — pyzbar's falsy-`symbols` check skips the per-type restriction
entirely. -/
theorem decode_empty_types_can_find_symbols :
    ¬(Pyzbar.decode (fun _ => [⟨.QRCODE, [72, 69, 76, 76, 79]⟩])
        ⟨.L, 1, 1, [0]⟩ [] = []) := by
  decide

/-- C6 amended: decoding with an empty SymbolTypeSet takes no failure path,
but it does not return an empty SymbolList: pyzbar treats an empty (falsy)
enabled-type list as "no restriction", leaving every symbology enabled, so
the result is the scanner's full scan of the image. -/
theorem decode_empty_types_unrestricted :
    ∀ (scan : PILImage → List Pyzbar.CodeResult) (img : PILImage),
      Pyzbar.decode scan img [] = scan img :=
  fun _ _ => rfl

/-- C7: each detection cycle replaces the published symbols list wholesale:
the new value never depends on the previous one, a cycle with zero decoder
symbols publishes the empty list, and the published value is exactly the
cycle's complete result; in the pyzbar variant, a successful
`_detect_qrcode_frame` likewise overwrites `symbols` with its result
regardless of the previous value. -/
theorem symbols_replaced_wholesale :
    (∀ (prior prior' : List Zbar.Qrcode) (zs : List Zbar.ZSymbol),
        Zbar.cyclePublish prior zs = Zbar.cyclePublish prior' zs ∧
        Zbar.cyclePublish prior [] = [] ∧
        Zbar.cyclePublish prior zs =
          (if zs.length = 0 then [] else zs.map Zbar.mkQrcode)) ∧
    ∀ (scan : PILImage → List Pyzbar.CodeResult) (platform : String)
      (s : Pyzbar.WidgetState) (t : RawFrame) (syms : List Pyzbar.Symbol),
      Pyzbar.detect_qrcode_frame scan platform t s.code_types = .ok syms →
      (Pyzbar.on_texture scan platform s t).symbols = syms := by
  constructor
  · intro prior prior' zs
    exact ⟨rfl, rfl, rfl⟩
  · intro scan platform s t syms h
    simp [Pyzbar.on_texture, h]

/-- C7 witness: a cycle with a nonempty previous list and zero decoder
symbols publishes `[]`, and a pyzbar handler run with a successful empty
decode overwrites a nonempty previous list with `[]`. -/
theorem symbols_replaced_wholesale_witness :
    Zbar.cyclePublish [⟨"QR", [1], none, 0, 0⟩] [] = [] ∧
    (Pyzbar.on_texture (fun _ => []) "linux"
        ⟨true, [⟨.EAN13, [9]⟩], []⟩ ⟨[5, 6, 7, 8], 1, 1, .RGBA⟩).symbols = [] :=
  ⟨(symbols_replaced_wholesale.1 [⟨"QR", [1], none, 0, 0⟩] [] []).2.1,
   symbols_replaced_wholesale.2 (fun _ => []) "linux"
     ⟨true, [⟨.EAN13, [9]⟩], []⟩ ⟨[5, 6, 7, 8], 1, 1, .RGBA⟩ [] rfl⟩

/-- C8: the decode step reads none of the widget's mutable state beyond the
configured type set, so when the decode of a frame succeeds, handler runs
from any two states with the same `code_types` publish the same SymbolList;
and running the handler twice on the same frame publishes the same list as
running it once (idempotence, given the deterministic abstracted scanner). -/
theorem decode_deterministic_idempotent :
    ∀ (scan : PILImage → List Pyzbar.CodeResult) (platform : String)
      (t : RawFrame) (ct : List Pyzbar.ZBarSymbol) (p₁ p₂ : Bool)
      (sy₁ sy₂ : List Pyzbar.Symbol),
      (∀ syms, Pyzbar.detect_qrcode_frame scan platform t ct = .ok syms →
        (Pyzbar.on_texture scan platform ⟨p₁, sy₁, ct⟩ t).symbols = syms ∧
        (Pyzbar.on_texture scan platform ⟨p₂, sy₂, ct⟩ t).symbols = syms) ∧
      (Pyzbar.on_texture scan platform
          (Pyzbar.on_texture scan platform ⟨p₁, sy₁, ct⟩ t) t).symbols =
        (Pyzbar.on_texture scan platform ⟨p₁, sy₁, ct⟩ t).symbols := by
  intro scan platform t ct p₁ p₂ sy₁ sy₂
  constructor
  · intro syms h
    constructor <;> simp [Pyzbar.on_texture, h]
  · cases h : Pyzbar.detect_qrcode_frame scan platform t ct <;>
      simp [Pyzbar.on_texture, h]

/-- C8 witness: with a scanner reporting one QR symbol on a 1×1 RGBA frame,
handler runs from two different states publish the same list, and a repeated
run publishes the same list as a single run. -/
theorem decode_deterministic_idempotent_witness :
    ((Pyzbar.on_texture (fun _ => [⟨.QRCODE, [72]⟩]) "linux"
        ⟨true, [], [.QRCODE]⟩ ⟨[1, 2, 3, 4], 1, 1, .RGBA⟩).symbols =
          [⟨.QRCODE, [72]⟩] ∧
      (Pyzbar.on_texture (fun _ => [⟨.QRCODE, [72]⟩]) "linux"
        ⟨false, [⟨.EAN13, [9]⟩], [.QRCODE]⟩ ⟨[1, 2, 3, 4], 1, 1, .RGBA⟩).symbols =
          [⟨.QRCODE, [72]⟩]) ∧
    (Pyzbar.on_texture (fun _ => [⟨.QRCODE, [72]⟩]) "linux"
        (Pyzbar.on_texture (fun _ => [⟨.QRCODE, [72]⟩]) "linux"
          ⟨true, [], [.QRCODE]⟩ ⟨[1, 2, 3, 4], 1, 1, .RGBA⟩)
        ⟨[1, 2, 3, 4], 1, 1, .RGBA⟩).symbols =
      (Pyzbar.on_texture (fun _ => [⟨.QRCODE, [72]⟩]) "linux"
        ⟨true, [], [.QRCODE]⟩ ⟨[1, 2, 3, 4], 1, 1, .RGBA⟩).symbols :=
  ⟨(decode_deterministic_idempotent (fun _ => [⟨.QRCODE, [72]⟩]) "linux"
      ⟨[1, 2, 3, 4], 1, 1, .RGBA⟩ [.QRCODE] true false [] [⟨.EAN13, [9]⟩]).1
      [⟨.QRCODE, [72]⟩] rfl,
   (decode_deterministic_idempotent (fun _ => [⟨.QRCODE, [72]⟩]) "linux"
      ⟨[1, 2, 3, 4], 1, 1, .RGBA⟩ [.QRCODE] true false [] [⟨.EAN13, [9]⟩]).2⟩

/-- C9: `start()` and `stop()` mutate only the camera's `play` flag: in both
variants the published symbols (and, in the pyzbar variant, the configured
`code_types`) are left unchanged — in particular `stop()` does not clear the
last published symbols. -/
theorem start_stop_touch_only_play :
    ∀ (z : Zbar.WidgetState) (s : Pyzbar.WidgetState),
      (Zbar.stop z).symbols = z.symbols ∧ (Zbar.stop z).play = false ∧
      (Zbar.start z).symbols = z.symbols ∧ (Zbar.start z).play = true ∧
      (Pyzbar.stop s).symbols = s.symbols ∧
      (Pyzbar.stop s).code_types = s.code_types ∧
      (Pyzbar.stop s).play = false ∧
      (Pyzbar.start s).symbols = s.symbols ∧
      (Pyzbar.start s).code_types = s.code_types ∧
      (Pyzbar.start s).play = true :=
  fun _ _ => ⟨rfl, rfl, rfl, rfl, rfl, rfl, rfl, rfl, rfl, rfl⟩

/-- C10: every `Qrcode` record a zbar-variant cycle ever publishes has
`bounds = none`, and its `type`, `data`, `quality` and `count` are taken
from a decoder symbol of that cycle. -/
theorem qrcode_bounds_always_none :
    ∀ (prior : List Zbar.Qrcode) (zs : List Zbar.ZSymbol) (q : Zbar.Qrcode),
      q ∈ Zbar.cyclePublish prior zs →
      q.bounds = none ∧
      ∃ s ∈ zs, q = ⟨s.type, s.data, none, s.quality, s.count⟩ := by
  intro prior zs q hq
  unfold Zbar.cyclePublish at hq
  split at hq
  · simp at hq
  · obtain ⟨s, hs, rfl⟩ := List.mem_map.1 hq
    exact ⟨rfl, s, hs, rfl⟩

/-- C10 witness: the record published for a concrete decoder symbol has
`bounds = none` and mirrors that symbol's fields. -/
theorem qrcode_bounds_always_none_witness :
    (⟨"QR", [7], none, 5, 1⟩ : Zbar.Qrcode).bounds = none ∧
    ∃ s ∈ [(⟨"QR", [7], 5, 1⟩ : Zbar.ZSymbol)],
      (⟨"QR", [7], none, 5, 1⟩ : Zbar.Qrcode) =
        ⟨s.type, s.data, none, s.quality, s.count⟩ :=
  qrcode_bounds_always_none [] [⟨"QR", [7], 5, 1⟩] ⟨"QR", [7], none, 5, 1⟩
    (by decide)

end ZbarcamModel
